import Mathlib

/-!
Verification development for the glider-dac filesystem watchdog
(`glider_dac_watchdog.py`): a shallow embedding of the
`HandleDeploymentDB` event handler and of the repository/filesystem
collaborators it drives, followed by theorems settling the spec claims.

Paths are modelled at component granularity as `List String` (an absolute
path is the watched base's components followed by the relative components);
filenames and their parsing are modelled on real `String`s, character by
character, mirroring the CPython primitives the source calls.
-/

namespace GliderDac

/-! ## Python string primitives -/

/-- Embeds Python's `in` containment test on sequences (used both for
`str in str` on character lists and, at component granularity, for the
handler's `self.base not in event.src_path` guard). -/
def seqContains {α : Type} [DecidableEq α] (needle : List α) : List α → Bool
  | [] => needle.isEmpty
  | x :: xs => needle.isPrefixOf (x :: xs) || seqContains needle xs

/-- Embeds Python `needle in hay` for strings (substring containment). -/
def strIn (needle hay : String) : Bool :=
  seqContains needle.data hay.data

/-- Embeds Python `s.endswith(suf)`. -/
def pyEndsWith (s suf : String) : Bool :=
  suf.data.reverse.isPrefixOf s.data.reverse

/-- Embeds Python `s[:-1]` (drop the last character). -/
def pyDropLast (s : String) : String :=
  ⟨s.data.dropLast⟩

/-- Embeds Python `s.startswith('.')`. -/
def startsWithDot (s : String) : Bool :=
  match s.data with
  | [] => false
  | c :: _ => c == '.'

/-- Helper for `s.split(c, 1)`: split a character list at the first
occurrence of `c`, the separator belonging to neither side. `none` when
`c` does not occur (Python then returns a one-element list, and unpacking
it into two variables raises `ValueError`). -/
def splitOnceAux (c : Char) : List Char → Option (List Char × List Char)
  | [] => none
  | x :: xs =>
    if x = c then some ([], xs)
    else
      match splitOnceAux c xs with
      | none => none
      | some (a, b) => some (x :: a, b)

/-- Embeds Python `s.split(c, 1)` restricted to the two cases the source
uses: `some (before, after)` at the first occurrence of `c`, else `none`. -/
def pySplitOnce (s : String) (c : Char) : Option (String × String) :=
  (splitOnceAux c s.data).map (fun p => (⟨p.1⟩, ⟨p.2⟩))

/-- Helper for `os.path.splitext`: split a character list at its last
`'.'`, the dot going with the extension. -/
def lastDotSplit : List Char → Option (List Char × List Char)
  | [] => none
  | x :: xs =>
    match lastDotSplit xs with
    | some (a, b) => some (x :: a, b)
    | none => if x = '.' then some ([], x :: xs) else none

/-- Embeds `os.path.splitext` on a base filename (no separators): split at
the last dot, except that a name consisting of leading dots only has no
extension (CPython's `genericpath._splitext` rule, e.g. `".nc"` has no
extension while `".x.nc"` splits as `(".x", ".nc")`). -/
def splitext (s : String) : String × String :=
  match lastDotSplit s.data with
  | none => (s, "")
  | some (stem, ext) =>
    if stem.any (fun c => c != '.') then (⟨stem⟩, ⟨ext⟩) else (s, "")

/-- Embeds `f.readline()` on a file's contents: the first line (the
trailing newline, if any, is whitespace and is removed by the `strip`
that always follows in the source, so it is dropped here). -/
def firstLine (s : String) : String :=
  ⟨s.data.takeWhile (fun c => c != '\n')⟩

/-- Embeds Python `s.strip()`: remove leading and trailing whitespace. -/
def pyStrip (s : String) : String :=
  ⟨((s.data.dropWhile Char.isWhitespace).reverse.dropWhile
      Char.isWhitespace).reverse⟩

/-! ## Paths

An absolute path is the component list of the watched base followed by
relative components; `os.path.join` is list append. -/

/-- Filesystem paths at component granularity. -/
abbrev Path := List String

/-- Last component of a path, as in `os.path.split(p)[-1]` and
`p.split('/')[-1]`. -/
def lastName (p : Path) : String :=
  p.getLastD ""

/-- Embeds `os.path.relpath(p, base)` for paths lying under `base` (the
only case the watcher exercises: every delivered event path is below the
watched root, and the handler has already checked containment). -/
def relpath (p base : Path) : Path :=
  if base.isPrefixOf p then p.drop base.length else p

/-! ## Filesystem events (the watchdog library's event classes) -/

/-- Embeds the `watchdog.events` classes the handler dispatches on. -/
inductive FSEvent : Type where
  | fileCreated (src : Path)
  | fileModified (src : Path)
  | fileMoved (src dest : Path)
  | dirCreated (src : Path)
  | dirDeleted (src : Path)
deriving DecidableEq

/-- Embeds `event.src_path`. -/
def FSEvent.srcPath : FSEvent → Path
  | .fileCreated p => p
  | .fileModified p => p
  | .fileMoved p _ => p
  | .dirCreated p => p
  | .dirDeleted p => p

/-- Path used for classification (source lines 27-29): the destination
for a moved event, the source otherwise. -/
def FSEvent.classPath : FSEvent → Path
  | .fileMoved _ dest => dest
  | .fileCreated p => p
  | .fileModified p => p
  | .dirCreated p => p
  | .dirDeleted p => p

/-! ## Data model and repository

Modelled from the spec: the `db.Deployment` / `db.User` model classes and
the record store live in the web application, which is not under `src/`
(the watchdog only imports them via `from glider_dac import app, db`).
Their fields and the `find_one` / `save` (upsert) / `delete` interface are
modelled from the spec's data-model and external-interface sections. -/

/-- Modelled from the spec: a User record (`id`, unique `username`). -/
structure User : Type where
  _id : Nat
  username : String
deriving DecidableEq

/-- Modelled from the spec: a Deployment record. A record built by the
bare constructor `db.Deployment()` starts from the model's defaults:
optional fields unset (`wmo_id` empty/falsy, `user_id`, `_id` and
`updated` absent) and boolean fields false; `_id` is repository-assigned
on first save. -/
structure Deployment : Type where
  _id : Option Nat := none
  name : String := ""
  user_id : Option Nat := none
  deployment_dir : Path := []
  glider_name : String := ""
  wmo_id : String := ""
  delayed_mode : Bool := false
  updated : Option Nat := none
deriving DecidableEq

/-- Modelled from the spec: the repository's state, plus the next
repository-assigned id. `find_one` is modelled as the first match in
list order. -/
structure DBState : Type where
  users : List User
  deployments : List Deployment
  nextId : Nat
deriving DecidableEq

/-- Modelled from the spec: `User.find_one({'username': u})`. -/
def findUser (st : DBState) (u : String) : Option User :=
  st.users.find? (fun x => x.username == u)

/-- Embeds `db.Deployment.find_one({'name': n})`. -/
def findDeploymentByName (st : DBState) (n : String) : Option Deployment :=
  st.deployments.find? (fun d => d.name == n)

/-- Embeds `db.Deployment.find_one({'deployment_dir': dir})`. -/
def findDeploymentByDir (st : DBState) (dir : Path) : Option Deployment :=
  st.deployments.find? (fun d => d.deployment_dir == dir)

/-- Modelled from the spec: `deployment.save()` is an upsert — a record
with a repository id replaces the stored record with that id; a fresh
record is assigned the next id and appended. Returns the new state and
the record as persisted. (Checksum / `latest_file` recomputation are side
effects of the out-of-scope repository and carry no state here.) -/
def DBState.saveDeployment (st : DBState) (d : Deployment) :
    DBState × Deployment :=
  match d._id with
  | some i =>
    ({ st with
        deployments :=
          st.deployments.map (fun e => if e._id == some i then d else e) },
      d)
  | none =>
    let d' := { d with _id := some st.nextId }
    ({ st with
        deployments := st.deployments ++ [d'],
        nextId := st.nextId + 1 },
      d')

/-- Modelled from the spec: `deployment.delete()` removes the stored
record with this record's repository id. -/
def DBState.deleteDeployment (st : DBState) (d : Deployment) : DBState :=
  { st with deployments := st.deployments.filter (fun e => e._id != d._id) }

/-! ## Environment

The handler's remaining collaborators: file contents for `open`/`readline`,
the `glob.iglob`/`os.path.isdir` probe of the NAVOCEANO directory, and
fault oracles saying which `os.makedirs` / `os.symlink` / flag-file `open`
calls raise `OSError`. `now` stands for `datetime.utcnow()`. -/
structure Env : Type where
  fileContent : Path → Option String
  glob : Path → String → List Path
  isDir : Path → Bool
  makedirsFails : Path → Bool
  symlinkFails : Path → Bool
  touchFails : Path → Bool
  now : Nat

/-- Uncaught Python exceptions the handler can raise past an event. -/
inductive PyErr : Type where
  | unboundLocal
  | osError
deriving DecidableEq

/-- Observable side effects of processing one event. Informational logger
calls that merely echo arguments are elided; error/exception logs and
every repository or filesystem mutation are recorded. `save`/`delete`
record the repository calls (with the record as persisted/removed);
`touchFlag` records an invocation of the ERDDAP notification sink. -/
inductive Effect : Type where
  | logError (msg : String)
  | logException (msg : String)
  | logInfo (msg : String)
  | makedirs (dir : Path)
  | symlink (target link : Path)
  | touchFlag (name : String)
  | save (d : Deployment)
  | delete (d : Deployment)
deriving DecidableEq

/-- Result of processing one event: the effects performed, and either the
resulting repository state or an uncaught exception. -/
abbrev HResult := List Effect × Except PyErr DBState

/-! ## The handler (`HandleDeploymentDB`)

`base` and `flagsdir` are the constructor arguments; `env` and `st` are
the ambient filesystem and repository. Each definition is a line-by-line
embedding of the corresponding method. -/

/-- Embeds the fixed NAVOCEANO intake directory's relative components
(`"navoceano/hurricanes-20230601T0000"`). -/
def navoIntakeDir : Path :=
  ["navoceano", "hurricanes-20230601T0000"]

/-- Embeds `HandleDeploymentDB.create_deployment_if_nonexistent(path_parts)`.
`p0` holds the components of `path_parts[0]` and `p1` is `path_parts[1]`
(the call sites pass either a 3-element split of a relative path, whose
third element the method never reads, or the `os.path.split` pair of the
NAVOCEANO target directory). Note line 170 of the source: `delayed_mode`
is assigned on the in-memory object only after `save()`, so the
assignment never reaches the stored record, which keeps the model's
default. -/
def create_deployment_if_nonexistent (env : Env) (st : DBState)
    (p0 : Path) (p1 : String) : DBState × List Effect :=
  let deployment_name := p1
  let username := lastName p0
  match findDeploymentByName st deployment_name with
  | some _ => (st, [])
  | none =>
    match findUser st username with
    | none =>
      -- `hasattr(None, '_id')` is false: log only, create nothing
      (st, [Effect.logInfo "User is None"])
    | some user =>
      let d : Deployment :=
        { _id := none
          user_id := some user._id
          name := deployment_name
          deployment_dir := [username, deployment_name]
          glider_name := ((pySplitOnce deployment_name '-').map
            Prod.fst).getD deployment_name
          updated := some env.now }
      let saved := st.saveDeployment d
      -- source line 170: executed after save(), mutates only the local
      -- object, which is then discarded
      let _unsavedLocal :=
        { saved.2 with delayed_mode := pyEndsWith deployment_name "-delayed" }
      (saved.1,
        [Effect.save saved.2,
         Effect.logInfo "Created previously nonexistent deployment"])

/-- Embeds `HandleDeploymentDB.touch_erddap(deployment_name)`: open the
flag file for writing (creating it). The `open` is not inside any
`try`, so an `OSError` here propagates. The `touchFlag` effect records
the invocation of the notification sink, whether or not the `open`
succeeds. -/
def touch_erddap (flagsdir : Path) (env : Env) (deployment_name : String) :
    List Effect × Except PyErr Unit :=
  let full_path := flagsdir ++ [deployment_name]
  if env.touchFails full_path then
    ([Effect.touchFlag deployment_name], .error .osError)
  else
    ([Effect.touchFlag deployment_name], .ok ())

/-- Embeds source lines 52-64: reuse the first existing directory under
`<base>/navoceano` whose name the glob matched for `glider_callsign`,
else synthesize `<base>/navoceano/<callsign>-<date_str>`. -/
def navo_target_dir (env : Env) (base : Path)
    (glider_callsign date_str : String) : Path :=
  let navo_directory := base ++ ["navoceano"]
  match (env.glob navo_directory glider_callsign).find? env.isDir with
  | some d => d
  | none => base ++ ["navoceano", glider_callsign ++ "-" ++ date_str]

/-- Embeds the body of `file_moved_or_created` from line 31 on, once
`path_parts = os.path.split(rel_path)` has been computed: `dir` and
`fname` are its two halves, and `srcPath` is `event.src_path`, still
consulted by the `wmoid.txt` branch. -/
def handle_parts (base flagsdir : Path) (env : Env) (st : DBState)
    (srcPath : Path) (dir : Path) (fname : String) (rel_path : Path) :
    HResult :=
  let path_parts := (dir, fname)
  -- ignore if a dotfile
  if startsWithDot path_parts.2 then ([], .ok st)
  else if path_parts.1 = navoIntakeDir then
    -- navoceano unsorted deployments
    if !(pyEndsWith path_parts.2 ".nc") then ([], .ok st)
    else
      let se := splitext path_parts.2
      let deployment_name_raw := se.1
      let extension := se.2
      match pySplitOnce deployment_name_raw '_' with
      | none =>
        -- the except clause logs but does not return; the next statement
        -- reads the never-assigned `date_str_tz` and raises
        -- UnboundLocalError
        ([Effect.logException
            "Cannot split NAVOCEANO hurricane glider filename"],
          .error .unboundLocal)
      | some (glider_callsign, date_str_tz) =>
        let date_str :=
          if pyEndsWith date_str_tz "Z" then pyDropLast date_str_tz
          else date_str_tz
        let navo_deployment_directory :=
          navo_target_dir env base glider_callsign date_str
        -- Directory could exist, but no deployment in DB!
        let created := create_deployment_if_nonexistent env st
          navo_deployment_directory.dropLast
          (lastName navo_deployment_directory)
        let link :=
          navo_deployment_directory ++
            [glider_callsign ++ "_" ++ date_str ++ extension]
        if env.makedirsFails navo_deployment_directory then
          (created.2 ++
            [Effect.logException
                "Could not create new deployment file for NAVOCEANO"],
            .ok created.1)
        else if env.symlinkFails link then
          (created.2 ++
            [Effect.makedirs navo_deployment_directory,
             Effect.logException
               "Could not create new deployment file for NAVOCEANO"],
            .ok created.1)
        else
          (created.2 ++
            [Effect.makedirs navo_deployment_directory,
             Effect.symlink (base ++ rel_path) link],
            .ok created.1)
  else
    match findDeploymentByDir st path_parts.1 with
    | none =>
      ([Effect.logError "Cannot find deployment"], .ok st)
    | some deployment =>
      if path_parts.2 = "wmoid.txt" then
        -- source line 83 recomputes a source-relative rel_path for the
        -- log line only; line 87 opens event.src_path
        let eff0 :=
          if deployment.wmo_id != "" then
            [Effect.logInfo "Deployment already has wmoid"]
          else []
        match env.fileContent srcPath with
        | none => (eff0, .error .osError)
        | some content =>
          let d' := { deployment with
            wmo_id := pyStrip (firstLine content) }
          let saved := st.saveDeployment d'
          (eff0 ++ [Effect.save saved.2], .ok saved.1)
      else if path_parts.2 = "extra_atts.json" then
        let saved := st.saveDeployment deployment
        ([Effect.save saved.2], .ok saved.1)
      else
        let ext := (splitext path_parts.2).2
        if strIn ".nc" ext then
          let saved := st.saveDeployment deployment
          -- touch the ERDDAP flag (realtime data only)
          if !deployment.delayed_mode then
            let deployment_name := lastName path_parts.1
            let t := touch_erddap flagsdir env deployment_name
            match t.2 with
            | .error e => ([Effect.save saved.2] ++ t.1, .error e)
            | .ok _ => ([Effect.save saved.2] ++ t.1, .ok saved.1)
          else
            ([Effect.save saved.2], .ok saved.1)
        else ([], .ok st)

/-- Embeds the body of `file_moved_or_created` from line 30 on, after
`rel_path` has been resolved (destination-relative for a moved event):
`path_parts = os.path.split(rel_path)`. -/
def handle_rel (base flagsdir : Path) (env : Env) (st : DBState)
    (srcPath rel_path : Path) : HResult :=
  handle_parts base flagsdir env st srcPath rel_path.dropLast
    (lastName rel_path) rel_path

/-- Embeds `HandleDeploymentDB.file_moved_or_created(event)` (lines
22-108): drop events not under the base; resolve `rel_path` from the
source path, or from the destination path for a moved event; then
process. -/
def file_moved_or_created (base flagsdir : Path) (env : Env)
    (st : DBState) (ev : FSEvent) : HResult :=
  if !(seqContains base ev.srcPath) then ([], .ok st)
  else
    handle_rel base flagsdir env st ev.srcPath (relpath ev.classPath base)

/-- Embeds `HandleDeploymentDB.on_created(event)`: a directory-creation
event whose relative path has exactly three components feeds the
lifecycle manager; a file-creation event is processed like a move; other
events are ignored. -/
def on_created (base flagsdir : Path) (env : Env) (st : DBState)
    (ev : FSEvent) : HResult :=
  match ev with
  | .dirCreated src =>
    if !(seqContains base src) then ([], .ok st)
    else
      let rel_path := relpath src base
      let path_parts := rel_path
      if path_parts.length ≠ 3 then ([], .ok st)
      else
        let created := create_deployment_if_nonexistent env st
          [path_parts.headD ""] (path_parts.getD 1 "")
        (created.2, .ok created.1)
  | .fileCreated _ => file_moved_or_created base flagsdir env st ev
  | _ => ([], .ok st)

/-- Embeds `HandleDeploymentDB.on_moved(event)`. -/
def on_moved (base flagsdir : Path) (env : Env) (st : DBState)
    (ev : FSEvent) : HResult :=
  match ev with
  | .fileMoved _ _ => file_moved_or_created base flagsdir env st ev
  | _ => ([], .ok st)

/-- Embeds `HandleDeploymentDB.on_modified(event)`. -/
def on_modified (base flagsdir : Path) (env : Env) (st : DBState)
    (ev : FSEvent) : HResult :=
  match ev with
  | .fileModified _ => file_moved_or_created base flagsdir env st ev
  | _ => ([], .ok st)

/-- Embeds `HandleDeploymentDB.on_deleted(event)` (lines 175-194): only a
directory-deletion event under the base whose relative path has exactly
three components is considered; the lookup key is the event's full
`src_path`, and a found record is deleted. -/
def on_deleted (base flagsdir : Path) (env : Env) (st : DBState)
    (ev : FSEvent) : HResult :=
  match ev with
  | .dirDeleted src =>
    if !(seqContains base src) then ([], .ok st)
    else
      let rel_path := relpath src base
      if rel_path.length ≠ 3 then ([], .ok st)
      else
        match findDeploymentByDir st src with
        | some deployment =>
          ([Effect.delete deployment], .ok (st.deleteDeployment deployment))
        | none => ([], .ok st)
  | _ => ([], .ok st)

/-! ## Concrete fixtures used by counterexamples, evaluations and
witnesses. `baseFix`/`flagsFix` play the role of the realpath'd
`basedir`/`flagsdir` arguments. -/

/-- Watched root used in concrete scenarios. -/
def baseFix : Path := ["data"]

/-- ERDDAP flag directory used in concrete scenarios. -/
def flagsFix : Path := ["flags"]

/-- Benign environment: no file readable, empty NAVOCEANO glob, no
filesystem call fails, clock at 7. -/
def envNone : Env :=
  { fileContent := fun _ => none
    glob := fun _ _ => []
    isDir := fun _ => false
    makedirsFails := fun _ => false
    symlinkFails := fun _ => false
    touchFails := fun _ => false
    now := 7 }

/-- Empty repository. -/
def emptyDB : DBState :=
  { users := [], deployments := [], nextId := 0 }

/-- User `bob`. -/
def userBob : User :=
  { _id := 5, username := "bob" }

/-- Repository holding only user `bob`. -/
def stBob : DBState :=
  { users := [userBob], deployments := [], nextId := 0 }

/-- An existing realtime deployment `alice/gl-1`. -/
def depGl1 : Deployment :=
  { _id := some 3
    name := "gl-1"
    user_id := some 5
    deployment_dir := ["alice", "gl-1"]
    glider_name := "gl"
    wmo_id := ""
    delayed_mode := false
    updated := none }

/-- Repository holding only `depGl1`. -/
def stGl1 : DBState :=
  { users := [], deployments := [depGl1], nextId := 9 }

/-- Deployment whose `deployment_dir` is the absolute path
`data/u/d` — exactly the source path of a two-component delete event. -/
def depAbs : Deployment :=
  { depGl1 with _id := some 4, name := "d", deployment_dir := ["data", "u", "d"] }

/-- Repository holding only `depAbs`. -/
def stAbs : DBState :=
  { users := [], deployments := [depAbs], nextId := 9 }

/-- Deployment whose `deployment_dir` is the absolute path of a
three-component delete event (`data/u/d/x`). -/
def depAbs3 : Deployment :=
  { depGl1 with _id := some 6, name := "d", deployment_dir := ["data", "u", "d", "x"] }

/-- Repository holding only `depAbs3`. -/
def stAbs3 : DBState :=
  { users := [], deployments := [depAbs3], nextId := 9 }

/-- Environment in which creating the ERDDAP flag file `flags/gl-1`
raises `OSError`. -/
def envTouchFail : Env :=
  { envNone with touchFails := fun p => p == ["flags", "gl-1"] }

/-- Environment in which creating the NAVOCEANO target directory
`data/navoceano/she-20230601T0000` raises `OSError`. -/
def envMkFail : Env :=
  { envNone with
      makedirsFails := fun p => p == ["data", "navoceano", "she-20230601T0000"] }

/-- Environment for the moved-`wmoid.txt` scenario: the move's source
path still reads `"1111\n"` while the destination file (the actual
`wmoid.txt`) contains `"2222\n"`. -/
def envWmoid : Env :=
  { envNone with
      fileContent := fun p =>
        if p == ["data", "alice", "gl-1", "wmoid.tmp"] then some "1111\n"
        else if p == ["data", "alice", "gl-1", "wmoid.txt"] then some "2222\n"
        else none }

/-! ## Path lemmas -/

/-- A list is a (boolean) prefix of itself followed by anything. -/
lemma isPrefixOf_self_append (l r : List String) :
    l.isPrefixOf (l ++ r) = true := by
  induction l with
  | nil => simp [List.isPrefixOf]
  | cons a as ih => simp [List.isPrefixOf, ih]

/-- The Python containment guard accepts every path below the base. -/
lemma seqContains_self_append (l r : List String) :
    seqContains l (l ++ r) = true := by
  cases h : l ++ r with
  | nil =>
    rcases List.append_eq_nil.mp h with ⟨h1, _⟩
    subst h1; simp [seqContains]
  | cons x xs =>
    rw [seqContains, ← h, isPrefixOf_self_append]
    simp

/-- Relativizing a path below the base drops the base components. -/
lemma relpath_append (b r : Path) : relpath (b ++ r) b = r := by
  rw [relpath, isPrefixOf_self_append]
  simp [List.drop_left]

/-- The `os.path.split` halves of `dir ++ [fname]`. -/
lemma dropLast_append_single (d : Path) (f : String) :
    (d ++ [f]).dropLast = d :=
  List.dropLast_concat

/-- Last component of `dir ++ [fname]`. -/
lemma lastName_append_single (d : Path) (f : String) :
    lastName (d ++ [f]) = f := by
  rw [lastName, List.getLastD_eq_getLast?, List.getLast?_concat]
  rfl

/-- Processing a file-creation event below the base reduces to the split
body. -/
lemma fmc_fileCreated (base flagsdir : Path) (env : Env) (st : DBState)
    (D : Path) (fname : String) :
    file_moved_or_created base flagsdir env st
        (.fileCreated (base ++ (D ++ [fname]))) =
      handle_parts base flagsdir env st (base ++ (D ++ [fname])) D fname
        (D ++ [fname]) := by
  rw [file_moved_or_created]
  simp only [FSEvent.srcPath, FSEvent.classPath, seqContains_self_append,
    Bool.not_true, Bool.false_eq_true, if_false, relpath_append]
  rw [handle_rel, dropLast_append_single, lastName_append_single]

/-- Processing a file-modification event below the base reduces to the
split body. -/
lemma fmc_fileModified (base flagsdir : Path) (env : Env) (st : DBState)
    (D : Path) (fname : String) :
    file_moved_or_created base flagsdir env st
        (.fileModified (base ++ (D ++ [fname]))) =
      handle_parts base flagsdir env st (base ++ (D ++ [fname])) D fname
        (D ++ [fname]) := by
  rw [file_moved_or_created]
  simp only [FSEvent.srcPath, FSEvent.classPath, seqContains_self_append,
    Bool.not_true, Bool.false_eq_true, if_false, relpath_append]
  rw [handle_rel, dropLast_append_single, lastName_append_single]

/-- Processing a move event whose source passes the containment guard
reduces to the split body at the destination path, with the source path
kept only for the `wmoid.txt` read. -/
lemma fmc_fileMoved (base flagsdir : Path) (env : Env) (st : DBState)
    (src : Path) (D : Path) (fname : String)
    (hsrc : seqContains base src = true) :
    file_moved_or_created base flagsdir env st
        (.fileMoved src (base ++ (D ++ [fname]))) =
      handle_parts base flagsdir env st src D fname (D ++ [fname]) := by
  rw [file_moved_or_created]
  simp only [FSEvent.srcPath, FSEvent.classPath, hsrc, Bool.not_true,
    Bool.false_eq_true, if_false, relpath_append]
  rw [handle_rel, dropLast_append_single, lastName_append_single]

/-- Behaviour of the split body on a data-file event: the directory is a
known deployment directory other than the intake directory, the filename
is not hidden and its extension contains `.nc`. The claims about saving,
flag touching and flag-failure propagation all read off this lemma. -/
lemma handle_parts_nc (base flagsdir : Path) (env : Env) (st : DBState)
    (src rel D : Path) (fname : String) (dep : Deployment)
    (hdot : startsWithDot fname = false)
    (hD : D ≠ navoIntakeDir)
    (hfind : findDeploymentByDir st D = some dep)
    (hext : strIn ".nc" (splitext fname).2 = true) :
    (dep.delayed_mode = false →
      (handle_parts base flagsdir env st src D fname rel).1 =
        [Effect.save (st.saveDeployment dep).2,
          Effect.touchFlag (lastName D)]) ∧
    (dep.delayed_mode = true →
      handle_parts base flagsdir env st src D fname rel =
        ([Effect.save (st.saveDeployment dep).2],
          .ok (st.saveDeployment dep).1)) ∧
    (dep.delayed_mode = false →
      env.touchFails (flagsdir ++ [lastName D]) = false →
      (handle_parts base flagsdir env st src D fname rel).2 =
        .ok (st.saveDeployment dep).1) ∧
    (dep.delayed_mode = false →
      env.touchFails (flagsdir ++ [lastName D]) = true →
      (handle_parts base flagsdir env st src D fname rel).2 =
        .error .osError) := by
  have hwm : fname ≠ "wmoid.txt" := by
    intro h; rw [h] at hext; exact absurd hext (by decide)
  have hea : fname ≠ "extra_atts.json" := by
    intro h; rw [h] at hext; exact absurd hext (by decide)
  rw [handle_parts]
  simp only [hdot, Bool.false_eq_true, if_false, if_neg hD, hfind, if_neg hwm,
    if_neg hea, hext, if_true]
  refine ⟨?_, ?_, ?_, ?_⟩
  · intro hdm
    simp only [hdm, Bool.not_false, if_true, touch_erddap]
    cases h : env.touchFails (flagsdir ++ [lastName D]) <;> simp [h]
  · intro hdm
    simp [hdm]
  · intro hdm h
    simp [hdm, touch_erddap, h]
  · intro hdm h
    simp [hdm, touch_erddap, h]

/-- Behaviour of the split body on a successfully parsed NAVOCEANO
intake file, in each of the three filesystem-fault situations: the
outcome is always `.ok` on the state left by the lifecycle step, an
`OSError` from `makedirs`/`symlink` only adds a logged exception, and in
the fault-free case the symlink keeps the underscore between callsign
and timestamp and the original extension. -/
lemma handle_parts_navo (base flagsdir : Path) (env : Env) (st : DBState)
    (src rel : Path) (fname stem ext cs ts ds : String) (D link : Path)
    (hdot : startsWithDot fname = false)
    (hnc : pyEndsWith fname ".nc" = true)
    (hse : splitext fname = (stem, ext))
    (hsp : pySplitOnce stem '_' = some (cs, ts))
    (hds : ds = (if pyEndsWith ts "Z" then pyDropLast ts else ts))
    (hD : D = navo_target_dir env base cs ds)
    (hlink : link = D ++ [cs ++ "_" ++ ds ++ ext]) :
    (env.makedirsFails D = true →
      handle_parts base flagsdir env st src navoIntakeDir fname rel =
        ((create_deployment_if_nonexistent env st D.dropLast (lastName D)).2 ++
            [Effect.logException
              "Could not create new deployment file for NAVOCEANO"],
          .ok (create_deployment_if_nonexistent env st D.dropLast
              (lastName D)).1)) ∧
    (env.makedirsFails D = false → env.symlinkFails link = true →
      handle_parts base flagsdir env st src navoIntakeDir fname rel =
        ((create_deployment_if_nonexistent env st D.dropLast (lastName D)).2 ++
            [Effect.makedirs D,
              Effect.logException
                "Could not create new deployment file for NAVOCEANO"],
          .ok (create_deployment_if_nonexistent env st D.dropLast
              (lastName D)).1)) ∧
    (env.makedirsFails D = false → env.symlinkFails link = false →
      handle_parts base flagsdir env st src navoIntakeDir fname rel =
        ((create_deployment_if_nonexistent env st D.dropLast (lastName D)).2 ++
            [Effect.makedirs D, Effect.symlink (base ++ rel) link],
          .ok (create_deployment_if_nonexistent env st D.dropLast
              (lastName D)).1)) := by
  rw [handle_parts]
  simp only [hdot, Bool.false_eq_true, if_false, if_pos rfl, hnc,
    Bool.not_true, hse, hsp, ← hds, ← hD, ← hlink]
  refine ⟨?_, ?_, ?_⟩
  · intro h; simp [h]
  · intro h1 h2; simp [h1, h2]
  · intro h1 h2; simp [h1, h2]

/-- The lifecycle step is a no-op (no effects either) when a Deployment
with the requested name already exists, whatever user or directory the
triggering path carried. -/
lemma create_existing (env : Env) (st : DBState) (p0 : Path) (p1 : String)
    (d : Deployment) (hd : findDeploymentByName st p1 = some d) :
    create_deployment_if_nonexistent env st p0 p1 = (st, []) := by
  rw [create_deployment_if_nonexistent, hd]

/-- The lifecycle step creates and persists exactly one record when no
Deployment with the requested name exists and the user is found. -/
lemma create_new (env : Env) (st : DBState) (p0 : Path) (p1 : String)
    (user : User)
    (hd : findDeploymentByName st p1 = none)
    (hu : findUser st (lastName p0) = some user) :
    create_deployment_if_nonexistent env st p0 p1 =
      ({ st with
          deployments := st.deployments ++
            [{ _id := some st.nextId
               name := p1
               user_id := some user._id
               deployment_dir := [lastName p0, p1]
               glider_name := ((pySplitOnce p1 '-').map Prod.fst).getD p1
               wmo_id := ""
               delayed_mode := false
               updated := some env.now }],
          nextId := st.nextId + 1 },
        [Effect.save
          { _id := some st.nextId
            name := p1
            user_id := some user._id
            deployment_dir := [lastName p0, p1]
            glider_name := ((pySplitOnce p1 '-').map Prod.fst).getD p1
            wmo_id := ""
            delayed_mode := false
            updated := some env.now },
         Effect.logInfo "Created previously nonexistent deployment"]) := by
  rw [create_deployment_if_nonexistent, hd, hu]
  simp [DBState.saveDeployment]

/-- A directory-created event below the base with exactly three relative
components routes to the lifecycle step with the first component as the
user path and the second as the deployment name. -/
lemma on_created_dir3 (base flagsdir : Path) (env : Env) (st : DBState)
    (u n s : String) :
    on_created base flagsdir env st (.dirCreated (base ++ [u, n, s])) =
      ((create_deployment_if_nonexistent env st [u] n).2,
        .ok (create_deployment_if_nonexistent env st [u] n).1) := by
  simp only [on_created, seqContains_self_append, Bool.not_true,
    Bool.false_eq_true, if_false, relpath_append]
  rw [if_neg (by simp)]
  rfl

/-- A directory-created event below the base whose relative path does
not have exactly three components is ignored. -/
lemma on_created_dir_not3 (base flagsdir : Path) (env : Env)
    (st : DBState) (rel : Path) (hlen : rel.length ≠ 3) :
    on_created base flagsdir env st (.dirCreated (base ++ rel)) =
      ([], .ok st) := by
  simp only [on_created, seqContains_self_append, Bool.not_true,
    Bool.false_eq_true, if_false, relpath_append]
  rw [if_pos hlen]

/-- The record persisted for directory `bob/glider1-delayed/...`: built
by `create_deployment_if_nonexistent` and written by `save()` before the
source's line 170 assigns `delayed_mode` on the discarded local object. -/
def depDelayedPersisted : Deployment :=
  { _id := some 0
    name := "glider1-delayed"
    user_id := some 5
    deployment_dir := ["bob", "glider1-delayed"]
    glider_name := "glider1"
    wmo_id := ""
    delayed_mode := false
    updated := some 7 }

/-- The `alice/gl-1` record after a `wmoid.txt` update with `"1111"`. -/
def depGl1Wmo : Deployment :=
  { depGl1 with wmo_id := "1111" }

/-! ## Claims -/

/-- Claim C1: a NAVOCEANO intake file named `badname.nc` (ending in `.nc`, no
underscore) does NOT merely log and drop: after the `except` clause logs
the parse failure, control falls through (there is no `return`) to the
line reading the never-assigned `date_str_tz`, so the handler raises an
uncaught `UnboundLocalError` past the event's processing. -/
theorem c1_navoceano_no_underscore_raises_unbound_local :
    file_moved_or_created baseFix flagsFix envNone emptyDB
        (.fileCreated (baseFix ++ navoIntakeDir ++ ["badname.nc"])) =
      ([Effect.logException
          "Cannot split NAVOCEANO hurricane glider filename"],
        .error .unboundLocal) := by
  rfl

/-- Claim C7 (failing input): for a `FileMovedEvent` whose destination is
`wmoid.txt`, the handler opens `event.src_path` — the pre-move path,
which no longer has a file — so the event raises an uncaught error and
`wmo_id` is never set, instead of reading the first line of the
`wmoid.txt` file as the claim states. -/
theorem c7_moved_wmoid_event_reads_missing_source :
    file_moved_or_created baseFix flagsFix envNone stGl1
        (.fileMoved ["data", "alice", "gl-1", "wmoid.tmp"]
          ["data", "alice", "gl-1", "wmoid.txt"]) =
      ([], .error .osError) ∧
    findDeploymentByDir stGl1 ["alice", "gl-1"] = some depGl1 := by
  exact ⟨rfl, rfl⟩

/-- Claim C8 (failing input `glider1-delayed`): the record persisted for a new
deployment named `glider1-delayed` has `delayed_mode = false`, because
the source assigns `delayed_mode` only after `save()`; every other field
of the claim is persisted as stated. -/
theorem c8_delayed_mode_missing_from_persisted_record :
    on_created baseFix flagsFix envNone stBob
        (.dirCreated ["data", "bob", "glider1-delayed", "x"]) =
      ([Effect.save depDelayedPersisted,
        Effect.logInfo "Created previously nonexistent deployment"],
        .ok { users := [userBob],
              deployments := [depDelayedPersisted],
              nextId := 1 }) ∧
    depDelayedPersisted.delayed_mode = false ∧
    pyEndsWith "glider1-delayed" "-delayed" = true ∧
    depDelayedPersisted.glider_name = "glider1" ∧
    depDelayedPersisted.deployment_dir = ["bob", "glider1-delayed"] ∧
    depDelayedPersisted.updated = some envNone.now := by
  refine ⟨rfl, rfl, by decide, rfl, rfl, rfl⟩

/-- Claim C9 (failing input): for a moved event the source path is NOT
discarded after classification — the `wmoid.txt` branch reads the file
contents from `event.src_path`, so `wmo_id` is set from the source
file's `"1111"` although the destination `wmoid.txt` holds `"2222"`. -/
theorem c9_moved_wmoid_event_uses_source_contents :
    file_moved_or_created baseFix flagsFix envWmoid stGl1
        (.fileMoved ["data", "alice", "gl-1", "wmoid.tmp"]
          ["data", "alice", "gl-1", "wmoid.txt"]) =
      ([Effect.save depGl1Wmo],
        .ok { users := [], deployments := [depGl1Wmo], nextId := 9 }) ∧
    envWmoid.fileContent ["data", "alice", "gl-1", "wmoid.txt"] =
      some "2222\n" ∧
    pyStrip (firstLine "2222\n") = "2222" ∧
    depGl1Wmo.wmo_id = "1111" := by
  refine ⟨rfl, rfl, rfl, rfl⟩

/-- Claim C2 (counterexample): a directory-created event whose relative path
has exactly two components (`bob/seaglider-001`), with a matching User
`bob` present and no Deployment of that name, is IGNORED — the
repository keeps no deployments — because `on_created` requires exactly
three relative components. -/
theorem c2_counterexample_two_component_event_ignored :
    on_created baseFix flagsFix envNone stBob
        (.dirCreated ["data", "bob", "seaglider-001"]) =
      ([], .ok stBob) ∧
    findUser stBob "bob" = some userBob ∧
    findDeploymentByName stBob "seaglider-001" = none ∧
    stBob.deployments = [] := by
  refine ⟨rfl, rfl, rfl, rfl⟩

/-- Claim C3 (counterexample): a directory-deleted event whose full path
equals the `deployment_dir` of the only stored Deployment leaves that
record in place, because the relative path has two components and
`on_deleted` requires exactly three. -/
theorem c3_counterexample_matching_dir_not_deleted :
    on_deleted baseFix flagsFix envNone stAbs
        (.dirDeleted ["data", "u", "d"]) =
      ([], .ok stAbs) ∧
    depAbs.deployment_dir = ["data", "u", "d"] ∧
    stAbs.deployments = [depAbs] := by
  refine ⟨rfl, rfl, rfl⟩

/-- Claim C4 (counterexample): the intake file `she_20230601T0000Z.nc` parses
successfully, yet the symlink created in the target directory is named
`she_20230601T0000.nc` — the underscore is kept (only the trailing `Z`
is dropped); the dash appears in the synthesized directory name, not in
the symlink name the claim describes. -/
theorem c4_counterexample_symlink_keeps_underscore :
    file_moved_or_created baseFix flagsFix envNone emptyDB
        (.fileCreated (baseFix ++ navoIntakeDir ++ ["she_20230601T0000Z.nc"])) =
      ([Effect.logInfo "User is None",
        Effect.makedirs ["data", "navoceano", "she-20230601T0000"],
        Effect.symlink (baseFix ++ navoIntakeDir ++ ["she_20230601T0000Z.nc"])
          ["data", "navoceano", "she-20230601T0000", "she_20230601T0000.nc"]],
        .ok emptyDB) ∧
    "she_20230601T0000.nc" ≠ "she-20230601T0000.nc" := by
  refine ⟨rfl, by decide⟩

/-- Claim C5 (counterexample): an `OSError` while creating the ERDDAP flag
file is NOT caught — a `.nc` file event for a realtime deployment whose
flag-file `open` fails propagates the exception past the event's
processing. -/
theorem c5_counterexample_flag_failure_propagates :
    file_moved_or_created baseFix flagsFix envTouchFail stGl1
        (.fileCreated ["data", "alice", "gl-1", "dive_001.nc"]) =
      ([Effect.save depGl1, Effect.touchFlag "gl-1"], .error .osError) ∧
    envTouchFail.touchFails (flagsFix ++ ["gl-1"]) = true := by
  refine ⟨rfl, rfl⟩

/-- Claim C6 (counterexample): the dotfile `.dive.nc` sits inside deployment
directory `alice/gl-1` whose record exists with `delayed_mode = false`,
and its extension is `.nc`, yet the event is dropped before the save —
no repository save and no flag touch happen. -/
theorem c6_counterexample_dotfile_not_saved :
    file_moved_or_created baseFix flagsFix envNone stGl1
        (.fileCreated ["data", "alice", "gl-1", ".dive.nc"]) =
      ([], .ok stGl1) ∧
    strIn ".nc" (splitext ".dive.nc").2 = true ∧
    findDeploymentByDir stGl1 ["alice", "gl-1"] = some depGl1 ∧
    depGl1.delayed_mode = false := by
  refine ⟨rfl, rfl, rfl, rfl⟩

/-- Claim C2 (amended): for every directory-created event under the watched
root whose relative path has exactly three components
`user/name/subdir`, with a matching User and no Deployment named `name`,
a Deployment named after the SECOND component is created and persisted
(owned by that user, with `deployment_dir = user/name`); directory-created
events whose relative path has more or fewer than three components are
ignored. -/
theorem c2_amended_dir_created_needs_three_components
    (base flagsdir : Path) (env : Env) (st : DBState)
    (u name sub : String) (user : User)
    (hu : findUser st u = some user)
    (hd : findDeploymentByName st name = none) :
    (∃ dep : Deployment,
      on_created base flagsdir env st
          (.dirCreated (base ++ [u, name, sub])) =
        ([Effect.save dep,
          Effect.logInfo "Created previously nonexistent deployment"],
          .ok { st with
                deployments := st.deployments ++ [dep],
                nextId := st.nextId + 1 }) ∧
      dep.name = name ∧
      dep.user_id = some user._id ∧
      dep.deployment_dir = [u, name] ∧
      dep.glider_name = ((pySplitOnce name '-').map Prod.fst).getD name ∧
      dep.updated = some env.now) ∧
    (∀ rel : Path, rel.length ≠ 3 →
      on_created base flagsdir env st (.dirCreated (base ++ rel)) =
        ([], .ok st)) := by
  constructor
  · refine ⟨{ _id := some st.nextId
              name := name
              user_id := some user._id
              deployment_dir := [u, name]
              glider_name := ((pySplitOnce name '-').map Prod.fst).getD name
              wmo_id := ""
              delayed_mode := false
              updated := some env.now }, ?_, rfl, rfl, rfl, rfl, rfl⟩
    rw [on_created_dir3, create_new env st [u] name user hd hu]
    rfl
  · intro rel hlen
    exact on_created_dir_not3 base flagsdir env st rel hlen

/-- Claim C2 (witness): the amended claim at directory `bob/seaglider-001/x`
over the repository holding only user `bob`. -/
theorem c2_amended_witness :
    (∃ dep : Deployment,
      on_created baseFix flagsFix envNone stBob
          (.dirCreated (baseFix ++ ["bob", "seaglider-001", "x"])) =
        ([Effect.save dep,
          Effect.logInfo "Created previously nonexistent deployment"],
          .ok { stBob with
                deployments := stBob.deployments ++ [dep],
                nextId := stBob.nextId + 1 }) ∧
      dep.name = "seaglider-001" ∧
      dep.user_id = some userBob._id ∧
      dep.deployment_dir = ["bob", "seaglider-001"] ∧
      dep.glider_name =
        ((pySplitOnce "seaglider-001" '-').map Prod.fst).getD
          "seaglider-001" ∧
      dep.updated = some envNone.now) ∧
    (∀ rel : Path, rel.length ≠ 3 →
      on_created baseFix flagsFix envNone stBob (.dirCreated (baseFix ++ rel)) =
        ([], .ok stBob)) :=
  c2_amended_dir_created_needs_three_components baseFix flagsFix envNone
    stBob "bob" "seaglider-001" "x" userBob rfl rfl

/-- Claim C3 (amended): a directory-deleted event under the watched root is
acted on only when its relative path has exactly three components; then,
if the event's full source path equals the `deployment_dir` of a stored
Deployment, exactly that record (the first match) is deleted and every
other record survives; when no record matches, or the relative path does
not have three components, the repository is unchanged. -/
theorem c3_amended_dir_deleted
    (base flagsdir : Path) (env : Env) (st : DBState) (rel : Path)
    (hlen : rel.length = 3)
    (hinj : ∀ e₁ ∈ st.deployments, ∀ e₂ ∈ st.deployments,
      e₁._id = e₂._id → e₁ = e₂) :
    (∀ d : Deployment, findDeploymentByDir st (base ++ rel) = some d →
      on_deleted base flagsdir env st (.dirDeleted (base ++ rel)) =
        ([Effect.delete d], .ok (st.deleteDeployment d)) ∧
      d ∉ (st.deleteDeployment d).deployments ∧
      (∀ e ∈ st.deployments, e ≠ d →
        e ∈ (st.deleteDeployment d).deployments) ∧
      (∀ e ∈ (st.deleteDeployment d).deployments, e ∈ st.deployments)) ∧
    (findDeploymentByDir st (base ++ rel) = none →
      on_deleted base flagsdir env st (.dirDeleted (base ++ rel)) =
        ([], .ok st)) ∧
    (∀ rel' : Path, rel'.length ≠ 3 →
      on_deleted base flagsdir env st (.dirDeleted (base ++ rel')) =
        ([], .ok st)) := by
  refine ⟨?_, ?_, ?_⟩
  · intro d hfind
    have hdmem : d ∈ st.deployments := List.mem_of_find?_eq_some hfind
    refine ⟨?_, ?_, ?_, ?_⟩
    · simp only [on_deleted, seqContains_self_append, Bool.not_true,
        Bool.false_eq_true, if_false, relpath_append]
      rw [if_neg (by rw [hlen]; exact fun h => h rfl), hfind]
    · intro hmem
      have := (List.mem_filter.mp hmem).2
      simp at this
    · intro e he hne
      refine List.mem_filter.mpr ⟨he, ?_⟩
      have : e._id ≠ d._id := fun h => hne (hinj e he d hdmem h)
      simpa using this
    · intro e he
      exact (List.mem_filter.mp he).1
  · intro hfind
    simp only [on_deleted, seqContains_self_append, Bool.not_true,
      Bool.false_eq_true, if_false, relpath_append]
    rw [if_neg (by rw [hlen]; exact fun h => h rfl), hfind]
  · intro rel' hlen'
    simp only [on_deleted, seqContains_self_append, Bool.not_true,
      Bool.false_eq_true, if_false, relpath_append]
    rw [if_pos hlen']

/-- Claim C3 (witness): the amended claim at the three-component event
`data/u/d/x` over a repository storing one matching record. -/
theorem c3_amended_witness :
    on_deleted baseFix flagsFix envNone stAbs3
        (.dirDeleted (baseFix ++ ["u", "d", "x"])) =
      ([Effect.delete depAbs3], .ok (stAbs3.deleteDeployment depAbs3)) ∧
    depAbs3 ∉ (stAbs3.deleteDeployment depAbs3).deployments := by
  have h := c3_amended_dir_deleted baseFix flagsFix envNone stAbs3
    ["u", "d", "x"] rfl (by decide)
  have h1 := h.1 depAbs3 rfl
  exact ⟨h1.1, h1.2.1⟩

/-- Claim C4 (amended): for every successfully parsed NAVOCEANO intake file
`<callsign>_<timestamp>[Z].nc`, the symlink created inside the target
deployment directory KEEPS the underscore between callsign and
timestamp (`<callsign>_<timestamp><ext>`, trailing `Z` dropped, original
extension preserved); the dash replaces the underscore only in the
synthesized deployment DIRECTORY name `<callsign>-<timestamp>`. -/
theorem c4_amended_symlink_keeps_underscore
    (base flagsdir : Path) (env : Env) (st : DBState)
    (fname stem ext cs ts ds : String) (D link : Path)
    (hdot : startsWithDot fname = false)
    (hnc : pyEndsWith fname ".nc" = true)
    (hse : splitext fname = (stem, ext))
    (hsp : pySplitOnce stem '_' = some (cs, ts))
    (hds : ds = (if pyEndsWith ts "Z" then pyDropLast ts else ts))
    (hD : D = navo_target_dir env base cs ds)
    (hlink : link = D ++ [cs ++ "_" ++ ds ++ ext])
    (hmk : env.makedirsFails D = false)
    (hsl : env.symlinkFails link = false) :
    file_moved_or_created base flagsdir env st
        (.fileCreated (base ++ (navoIntakeDir ++ [fname]))) =
      ((create_deployment_if_nonexistent env st D.dropLast
            (lastName D)).2 ++
          [Effect.makedirs D,
            Effect.symlink (base ++ (navoIntakeDir ++ [fname])) link],
        .ok (create_deployment_if_nonexistent env st D.dropLast
            (lastName D)).1) ∧
    ((env.glob (base ++ ["navoceano"]) cs).find? env.isDir = none →
      D = base ++ ["navoceano", cs ++ "-" ++ ds]) := by
  constructor
  · rw [fmc_fileCreated]
    exact (handle_parts_navo base flagsdir env st
      (base ++ (navoIntakeDir ++ [fname])) (navoIntakeDir ++ [fname])
      fname stem ext cs ts ds D link hdot hnc hse hsp hds hD
      hlink).2.2 hmk hsl
  · intro hglob
    rw [hD, navo_target_dir, hglob]

/-- Claim C4 (witness): the amended claim at the concrete intake file
`she_20230601T0000Z.nc` with an empty glob. -/
theorem c4_amended_witness :
    file_moved_or_created baseFix flagsFix envNone emptyDB
        (.fileCreated (baseFix ++ (navoIntakeDir ++ ["she_20230601T0000Z.nc"]))) =
      ((create_deployment_if_nonexistent envNone emptyDB
            (["data", "navoceano", "she-20230601T0000"] : Path).dropLast
            (lastName ["data", "navoceano", "she-20230601T0000"])).2 ++
          [Effect.makedirs ["data", "navoceano", "she-20230601T0000"],
            Effect.symlink
              (baseFix ++ (navoIntakeDir ++ ["she_20230601T0000Z.nc"]))
              (["data", "navoceano", "she-20230601T0000"] ++
                ["she" ++ "_" ++ "20230601T0000" ++ ".nc"])],
        .ok (create_deployment_if_nonexistent envNone emptyDB
            (["data", "navoceano", "she-20230601T0000"] : Path).dropLast
            (lastName ["data", "navoceano", "she-20230601T0000"])).1) ∧
    ((envNone.glob (baseFix ++ ["navoceano"]) "she").find? envNone.isDir =
        none →
      (["data", "navoceano", "she-20230601T0000"] : Path) =
        baseFix ++ ["navoceano", "she" ++ "-" ++ "20230601T0000"]) :=
  c4_amended_symlink_keeps_underscore baseFix flagsFix envNone emptyDB
    "she_20230601T0000Z.nc" "she_20230601T0000Z" ".nc" "she"
    "20230601T0000Z" "20230601T0000"
    ["data", "navoceano", "she-20230601T0000"]
    (["data", "navoceano", "she-20230601T0000"] ++
      ["she" ++ "_" ++ "20230601T0000" ++ ".nc"])
    rfl rfl rfl rfl rfl rfl rfl rfl rfl

/-- Claim C5 (amended): an `OSError` while creating the NAVOCEANO deployment
directory or symlink is caught — the event finishes with the repository
state left by the lifecycle step and, on failure, a logged exception —
but an `OSError` while creating an ERDDAP flag file is NOT caught and
propagates past the event's processing. -/
theorem c5_amended_os_failure_policy :
    (∀ (base flagsdir : Path) (env : Env) (st : DBState)
        (fname stem ext cs ts ds : String) (D link : Path),
      startsWithDot fname = false →
      pyEndsWith fname ".nc" = true →
      splitext fname = (stem, ext) →
      pySplitOnce stem '_' = some (cs, ts) →
      ds = (if pyEndsWith ts "Z" then pyDropLast ts else ts) →
      D = navo_target_dir env base cs ds →
      link = D ++ [cs ++ "_" ++ ds ++ ext] →
      (file_moved_or_created base flagsdir env st
          (.fileCreated (base ++ (navoIntakeDir ++ [fname])))).2 =
        .ok (create_deployment_if_nonexistent env st D.dropLast
            (lastName D)).1 ∧
      (env.makedirsFails D = true ∨ env.symlinkFails link = true →
        Effect.logException
            "Could not create new deployment file for NAVOCEANO" ∈
          (file_moved_or_created base flagsdir env st
            (.fileCreated (base ++ (navoIntakeDir ++ [fname])))).1)) ∧
    (∀ (base flagsdir : Path) (env : Env) (st : DBState) (D : Path)
        (fname : String) (dep : Deployment),
      startsWithDot fname = false →
      D ≠ navoIntakeDir →
      findDeploymentByDir st D = some dep →
      strIn ".nc" (splitext fname).2 = true →
      dep.delayed_mode = false →
      env.touchFails (flagsdir ++ [lastName D]) = true →
      (file_moved_or_created base flagsdir env st
          (.fileCreated (base ++ (D ++ [fname])))).2 = .error .osError) := by
  constructor
  · intro base flagsdir env st fname stem ext cs ts ds D link
      hdot hnc hse hsp hds hD hlink
    rw [fmc_fileCreated]
    have h := handle_parts_navo base flagsdir env st
      (base ++ (navoIntakeDir ++ [fname])) (navoIntakeDir ++ [fname])
      fname stem ext cs ts ds D link hdot hnc hse hsp hds hD hlink
    cases hmk : env.makedirsFails D with
    | true =>
      rw [h.1 hmk]
      exact ⟨rfl, fun _ => by simp⟩
    | false =>
      cases hsl : env.symlinkFails link with
      | true =>
        rw [h.2.1 hmk hsl]
        exact ⟨rfl, fun _ => by simp⟩
      | false =>
        rw [h.2.2 hmk hsl]
        refine ⟨rfl, fun hor => ?_⟩
        rcases hor with hor | hor <;> simp at hor
  · intro base flagsdir env st D fname dep hdot hD hfind hext hdm htf
    rw [fmc_fileCreated]
    exact (handle_parts_nc base flagsdir env st (base ++ (D ++ [fname]))
      (D ++ [fname]) D fname dep hdot hD hfind hext).2.2.2 hdm htf

/-- Claim C5 (witness): both halves of the amended claim at concrete inputs —
a failing `makedirs` for the intake file `she_20230601T0000Z.nc` is
absorbed and logged, and a failing flag-file `open` for
`alice/gl-1/dive_001.nc` escapes as an error. -/
theorem c5_amended_witness :
    ((file_moved_or_created baseFix flagsFix envMkFail emptyDB
        (.fileCreated (baseFix ++ (navoIntakeDir ++
          ["she_20230601T0000Z.nc"])))).2 =
      .ok (create_deployment_if_nonexistent envMkFail emptyDB
          (["data", "navoceano", "she-20230601T0000"] : Path).dropLast
          (lastName ["data", "navoceano", "she-20230601T0000"])).1 ∧
      Effect.logException
          "Could not create new deployment file for NAVOCEANO" ∈
        (file_moved_or_created baseFix flagsFix envMkFail emptyDB
          (.fileCreated (baseFix ++ (navoIntakeDir ++
            ["she_20230601T0000Z.nc"])))).1) ∧
    (file_moved_or_created baseFix flagsFix envTouchFail stGl1
        (.fileCreated (baseFix ++ (["alice", "gl-1"] ++
          ["dive_001.nc"])))).2 = .error .osError := by
  have h1 := c5_amended_os_failure_policy.1 baseFix flagsFix envMkFail
    emptyDB "she_20230601T0000Z.nc" "she_20230601T0000Z" ".nc" "she"
    "20230601T0000Z" "20230601T0000"
    ["data", "navoceano", "she-20230601T0000"]
    (["data", "navoceano", "she-20230601T0000"] ++
      ["she" ++ "_" ++ "20230601T0000" ++ ".nc"])
    rfl rfl rfl rfl rfl rfl rfl
  have h2 := c5_amended_os_failure_policy.2 baseFix flagsFix envTouchFail
    stGl1 ["alice", "gl-1"] "dive_001.nc" depGl1 rfl (by decide) rfl rfl
    rfl rfl
  exact ⟨⟨h1.1, h1.2 (Or.inl rfl)⟩, h2⟩

/-- Claim C6 (amended): for every file event (created, modified, or moved by
its destination) on a non-hidden file inside a deployment directory
other than the NAVOCEANO intake directory, whose Deployment record
exists and whose filename extension contains `.nc`: the Deployment is
saved, and the flag-file touch — named after the trailing segment of the
deployment directory — is invoked exactly once when `delayed_mode` is
false and not at all when it is true. -/
theorem c6_amended_nc_save_and_touch_gating
    (base flagsdir : Path) (env : Env) (st : DBState) (D : Path)
    (fname : String) (dep : Deployment) (ev : FSEvent)
    (hev : ev = .fileCreated (base ++ (D ++ [fname])) ∨
      ev = .fileModified (base ++ (D ++ [fname])) ∨
      ∃ q, ev = .fileMoved q (base ++ (D ++ [fname])) ∧
        seqContains base q = true)
    (hdot : startsWithDot fname = false)
    (hD : D ≠ navoIntakeDir)
    (hfind : findDeploymentByDir st D = some dep)
    (hext : strIn ".nc" (splitext fname).2 = true) :
    (dep.delayed_mode = false →
      (file_moved_or_created base flagsdir env st ev).1 =
        [Effect.save (st.saveDeployment dep).2,
          Effect.touchFlag (lastName D)]) ∧
    (dep.delayed_mode = true →
      file_moved_or_created base flagsdir env st ev =
        ([Effect.save (st.saveDeployment dep).2],
          .ok (st.saveDeployment dep).1)) := by
  rcases hev with h | h | ⟨q, h, hq⟩
  · subst h
    rw [fmc_fileCreated]
    have := handle_parts_nc base flagsdir env st (base ++ (D ++ [fname]))
      (D ++ [fname]) D fname dep hdot hD hfind hext
    exact ⟨this.1, this.2.1⟩
  · subst h
    rw [fmc_fileModified]
    have := handle_parts_nc base flagsdir env st (base ++ (D ++ [fname]))
      (D ++ [fname]) D fname dep hdot hD hfind hext
    exact ⟨this.1, this.2.1⟩
  · subst h
    rw [fmc_fileMoved base flagsdir env st q D fname hq]
    have := handle_parts_nc base flagsdir env st q
      (D ++ [fname]) D fname dep hdot hD hfind hext
    exact ⟨this.1, this.2.1⟩

/-- Claim C6 (witness): the amended claim at the realtime deployment
`alice/gl-1` and the data file `dive_001.nc`: one save, one flag touch
named `gl-1`. -/
theorem c6_amended_witness :
    (file_moved_or_created baseFix flagsFix envNone stGl1
        (.fileCreated (baseFix ++ (["alice", "gl-1"] ++
          ["dive_001.nc"])))).1 =
      [Effect.save (stGl1.saveDeployment depGl1).2,
        Effect.touchFlag (lastName ["alice", "gl-1"])] :=
  (c6_amended_nc_save_and_touch_gating baseFix flagsFix envNone stGl1
    ["alice", "gl-1"] "dive_001.nc" depGl1
    (.fileCreated (baseFix ++ (["alice", "gl-1"] ++ ["dive_001.nc"])))
    (Or.inl rfl) rfl (by decide) rfl rfl).1 rfl

/-- Claim C10: deployment existence in `create_deployment_if_nonexistent` is
checked by name alone — whenever any stored Deployment already bears the
name `N`, a directory-created event for `<other_user>/N` (and for
`<other_user>/N/<anything>`) leaves the repository exactly unchanged: no
record is created and the existing records, including their `user_id`
and `deployment_dir`, are untouched. -/
theorem c10_existence_checked_by_name_only
    (base flagsdir : Path) (env : Env) (st : DBState)
    (u2 N : String) (x : Path) (dep : Deployment)
    (hmem : dep ∈ st.deployments) (hname : dep.name = N) :
    on_created base flagsdir env st
        (.dirCreated (base ++ ([u2, N] ++ x))) = ([], .ok st) := by
  have hfind : ∃ d, findDeploymentByName st N = some d := by
    have hs : (st.deployments.find? (fun d => d.name == N)).isSome := by
      rw [List.find?_isSome]
      exact ⟨dep, hmem, by rw [hname]; exact beq_self_eq_true N⟩
    exact Option.isSome_iff_exists.mp hs
  obtain ⟨d0, hd0⟩ := hfind
  cases x with
  | nil => exact on_created_dir_not3 base flagsdir env st [u2, N] (by simp)
  | cons x0 xs =>
    cases xs with
    | nil =>
      rw [show ([u2, N] ++ [x0] : Path) = [u2, N, x0] from rfl,
        on_created_dir3, create_existing env st [u2] N d0 hd0]
    | cons x1 xs2 =>
      refine on_created_dir_not3 base flagsdir env st
        ([u2, N] ++ (x0 :: x1 :: xs2)) ?_
      simp only [List.length_append, List.length_cons, List.length_nil]
      omega

/-- Claim C10 (witness): with `gl-1` already stored (under `alice`), the
directory-created event `eve/gl-1/x` changes nothing. -/
theorem c10_witness :
    on_created baseFix flagsFix envNone stGl1
        (.dirCreated (baseFix ++ (["eve", "gl-1"] ++ ["x"]))) =
      ([], .ok stGl1) :=
  c10_existence_checked_by_name_only baseFix flagsFix envNone stGl1
    "eve" "gl-1" ["x"] depGl1 (by decide) rfl

end GliderDac
